import Mathlib

/-!
Verification development for the dxvk graphics-pipeline engine
(`src/dxvk/dxvk_graphics.h`).

The inline member functions of the header (shader-set equality, hashing and
validation, instance compatibility) are translated directly from the source.
Member functions that are only declared in the header (handle resolution,
instance creation, barrier computation, state validation, fragment
equality/hashing) are modelled from the specification, as marked in the
doc comments of the corresponding definitions.
-/

namespace Dxvk

/-- Maximum number of render targets (dxvk limit constant). -/
def MaxNumRenderTargets : Nat := 8

/-- Maximum number of vertex bindings (dxvk limit constant). -/
def MaxNumVertexBindings : Nat := 32

/-- Maximum number of vertex attributes (dxvk limit constant). -/
def MaxNumVertexAttributes : Nat := 32

/-- Shader stages of the graphics pipeline (VkShaderStageFlagBits, restricted
to the five stages used by `DxvkGraphicsPipelineShaders`). -/
inductive VkShaderStageFlagBits where
  | vertex
  | tessellationControl
  | tessellationEvaluation
  | geometry
  | fragment
  deriving DecidableEq, Repr

/-- Resource-access declarations of a shader, by descriptor type.  These are
the accesses a shader can declare through its descriptor bindings; fixed
function effects such as transform-feedback writes are not descriptor
accesses and therefore have no constructor here. -/
inductive DxvkDescriptorAccess where
  | uniformRead
  | sampledRead
  | storageRead
  | storageWrite
  deriving DecidableEq, Repr

/-- Reflection info of a shader (subset of DxvkShaderCreateInfo relevant to
this engine): declared stage, fragment output mask, vertex input mask,
whether transform feedback is declared, and declared resource accesses. -/
structure DxvkShaderCreateInfo where
  stage : VkShaderStageFlagBits
  outputMask : Nat
  inputMask : Nat
  xfbEnabled : Bool
  resourceAccess : List DxvkDescriptorAccess
  deriving DecidableEq, Repr

/-- A shader object.  `Rc<DxvkShader>` references compare by object identity;
objects are modelled as values, so reference equality is value equality and
the stored hash is a function of the object. -/
structure DxvkShader where
  id : Nat
  shaderHash : Nat
  info : DxvkShaderCreateInfo
  deriving DecidableEq, Repr

/-- `DxvkShader::getHash` on a nullable reference: null hashes to zero. -/
def DxvkShader.getHash (shader : Option DxvkShader) : Nat :=
  match shader with
  | none => 0
  | some s => s.shaderHash

/-- Modelled from the spec: the hash combiner of `DxvkHashState` (its source
file is not part of this fragment).  A deterministic 64-bit mixing step;
determinism is all the development relies on. -/
def hashCombine (st h : Nat) : Nat :=
  (st ^^^ ((h + 2654435769 + st * 64 + st / 4) % 18446744073709551616)) %
    18446744073709551616

/-- Folding a list of numbers through the hash combiner, as a sequence of
`DxvkHashState::add` calls starting from the empty state. -/
def natListHash (xs : List Nat) : Nat :=
  xs.foldl hashCombine 0

/-- Shaders used in graphics pipelines (`DxvkGraphicsPipelineShaders`): up to
five nullable shader-stage references. -/
structure DxvkGraphicsPipelineShaders where
  vs : Option DxvkShader
  tcs : Option DxvkShader
  tes : Option DxvkShader
  gs : Option DxvkShader
  fs : Option DxvkShader
  deriving DecidableEq, Repr

/-- `DxvkGraphicsPipelineShaders::eq`: slot-wise reference equality of the
five shader slots (translated from the header). -/
def DxvkGraphicsPipelineShaders.eq (a b : DxvkGraphicsPipelineShaders) : Bool :=
  decide (a.vs = b.vs) && decide (a.tcs = b.tcs)
    && decide (a.tes = b.tes) && decide (a.gs = b.gs)
    && decide (a.fs = b.fs)

/-- `DxvkGraphicsPipelineShaders::hash`: a `DxvkHashState` fed the hash of
each slot in order (translated from the header). -/
def DxvkGraphicsPipelineShaders.hash (s : DxvkGraphicsPipelineShaders) : Nat :=
  natListHash [DxvkShader.getHash s.vs, DxvkShader.getHash s.tcs,
    DxvkShader.getHash s.tes, DxvkShader.getHash s.gs, DxvkShader.getHash s.fs]

/-- `DxvkGraphicsPipelineShaders::validateShaderType`: a slot is valid when it
is null or its declared stage matches the expected stage (translated from the
header). -/
def DxvkGraphicsPipelineShaders.validateShaderType
    (shader : Option DxvkShader) (stage : VkShaderStageFlagBits) : Bool :=
  match shader with
  | none => true
  | some s => decide (s.info.stage = stage)

/-- `DxvkGraphicsPipelineShaders::validate`: every slot must pass
`validateShaderType` for its structural position (translated from the
header). -/
def DxvkGraphicsPipelineShaders.validate (s : DxvkGraphicsPipelineShaders) : Bool :=
  DxvkGraphicsPipelineShaders.validateShaderType s.vs .vertex
    && DxvkGraphicsPipelineShaders.validateShaderType s.tcs .tessellationControl
    && DxvkGraphicsPipelineShaders.validateShaderType s.tes .tessellationEvaluation
    && DxvkGraphicsPipelineShaders.validateShaderType s.gs .geometry
    && DxvkGraphicsPipelineShaders.validateShaderType s.fs .fragment

/-- Slot-wise stage agreement written as a spec-level check: a slot agrees
when it is empty or holds a shader of the given stage. -/
def specStageMatches (shader : Option DxvkShader) (stage : VkShaderStageFlagBits) : Bool :=
  shader.all fun s => decide (s.info.stage = stage)

/-- One vertex binding description (binding index, stride, input rate,
instancing divisor). -/
structure DxvkVertexBinding where
  binding : Nat
  stride : Nat
  inputRate : Nat
  divisor : Nat
  deriving DecidableEq, Repr

/-- One vertex attribute description (location, binding, format, offset). -/
structure DxvkVertexAttribute where
  location : Nat
  binding : Nat
  format : Nat
  offset : Nat
  deriving DecidableEq, Repr

/-- One vertex binding divisor description. -/
structure DxvkVertexDivisor where
  binding : Nat
  divisor : Nat
  deriving DecidableEq, Repr

/-- Per-render-target color blend attachment state. -/
structure DxvkBlendAttachment where
  blendEnable : Bool
  colorWriteMask : Nat
  deriving DecidableEq, Repr

/-- The default (unpopulated) blend attachment state. -/
def DxvkBlendAttachment.default : DxvkBlendAttachment :=
  { blendEnable := false, colorWriteMask := 0 }

/-- The full fixed-function state vector
(`DxvkGraphicsPipelineStateInfo`, opaque to this engine beyond structural
equality and hashing).  Fields cover the slices the claims exercise:
input assembly, vertex input layout, rasterization stream selection,
multisampling, and per-render-target output state. -/
structure DxvkGraphicsPipelineStateInfo where
  iaPrimitiveTopology : Nat
  iaPatchVertexCount : Nat
  ilBindingCount : Nat
  ilAttributeCount : Nat
  ilBindings : List DxvkVertexBinding
  ilAttributes : List DxvkVertexAttribute
  rsStreamIndex : Nat
  msSampleMask : Nat
  omFormats : List Nat
  omBlend : List DxvkBlendAttachment
  deriving DecidableEq, Repr

/-- Normalize a per-render-target array against a fragment-shader output
mask: a slot the shader does not write is forced to the default value, and
the array is canonicalized to `MaxNumRenderTargets` entries. -/
def normalizeRtArray (mask : Nat) (xs : List α) (dflt : α) : List α :=
  (List.range MaxNumRenderTargets).map fun i =>
    if mask.testBit i then xs.getD i dflt else dflt

/-- Modelled from the spec (§4.1, §4.2 tie-break; the builder bodies are not
part of this fragment): normalization of a raw state vector against the
engine's shader set.  Vertex bindings, divisors and attributes are restricted
to the populated counts and to the locations the vertex shader consumes;
render-target formats and blend state are intersected with the fragment
shader's output mask.  The stored state vector of an instance is this
normalized form, never the caller's raw input. -/
def normalizeState (sh : DxvkGraphicsPipelineShaders)
    (s : DxvkGraphicsPipelineStateInfo) : DxvkGraphicsPipelineStateInfo :=
  let fsMask : Nat :=
    match sh.fs with
    | some f => f.info.outputMask
    | none => 0
  let vsMask : Nat :=
    match sh.vs with
    | some v => v.info.inputMask
    | none => 0
  let attrs :=
    (s.ilAttributes.take s.ilAttributeCount).filter fun a => vsMask.testBit a.location
  { iaPrimitiveTopology := s.iaPrimitiveTopology
    iaPatchVertexCount := s.iaPatchVertexCount
    ilBindingCount := min s.ilBindingCount s.ilBindings.length
    ilAttributeCount := attrs.length
    ilBindings := s.ilBindings.take s.ilBindingCount
    ilAttributes := attrs
    rsStreamIndex := s.rsStreamIndex
    msSampleMask := s.msSampleMask
    omFormats := normalizeRtArray fsMask s.omFormats 0
    omBlend := normalizeRtArray fsMask s.omBlend DxvkBlendAttachment.default }

/-- Vertex input fragment (`DxvkGraphicsPipelineVertexInputState`): input
assembly state, population counts, and fixed-size backing arrays of which
only the first `count` entries are populated. -/
structure DxvkGraphicsPipelineVertexInputState where
  iaPrimitiveTopology : Nat
  iaPrimitiveRestart : Bool
  viBindingCount : Nat
  viAttributeCount : Nat
  viDivisorCount : Nat
  viBindings : List DxvkVertexBinding
  viDivisors : List DxvkVertexDivisor
  viAttributes : List DxvkVertexAttribute
  deriving DecidableEq, Repr

/-- The populated-field view of a vertex input fragment. -/
structure ViKey where
  topology : Nat
  restart : Bool
  bindingCount : Nat
  attributeCount : Nat
  divisorCount : Nat
  bindings : List DxvkVertexBinding
  divisors : List DxvkVertexDivisor
  attributes : List DxvkVertexAttribute
  deriving DecidableEq, Repr

/-- The populated fields of a vertex input fragment: scalars, counts, and
the backing arrays truncated to their population counts.  Entries of the
backing arrays beyond the counts are not part of the fragment's identity. -/
def viKey (a : DxvkGraphicsPipelineVertexInputState) : ViKey :=
  { topology := a.iaPrimitiveTopology
    restart := a.iaPrimitiveRestart
    bindingCount := a.viBindingCount
    attributeCount := a.viAttributeCount
    divisorCount := a.viDivisorCount
    bindings := a.viBindings.take a.viBindingCount
    divisors := a.viDivisors.take a.viDivisorCount
    attributes := a.viAttributes.take a.viAttributeCount }

/-- Modelled from the spec (§4.1; the body is not part of this fragment):
`DxvkGraphicsPipelineVertexInputState::eq` compares exactly the populated
fields. -/
def DxvkGraphicsPipelineVertexInputState.eq
    (a b : DxvkGraphicsPipelineVertexInputState) : Bool :=
  decide (viKey a = viKey b)

/-- Flatten a vertex binding into numbers for hashing. -/
def encodeBinding (b : DxvkVertexBinding) : List Nat :=
  [b.binding, b.stride, b.inputRate, b.divisor]

/-- Flatten a vertex divisor into numbers for hashing. -/
def encodeDivisor (d : DxvkVertexDivisor) : List Nat :=
  [d.binding, d.divisor]

/-- Flatten a vertex attribute into numbers for hashing. -/
def encodeAttribute (a : DxvkVertexAttribute) : List Nat :=
  [a.location, a.binding, a.format, a.offset]

/-- Modelled from the spec (§4.1; the body is not part of this fragment):
`DxvkGraphicsPipelineVertexInputState::hash` hashes exactly the populated
fields. -/
def DxvkGraphicsPipelineVertexInputState.hash
    (a : DxvkGraphicsPipelineVertexInputState) : Nat :=
  natListHash ([a.iaPrimitiveTopology, cond a.iaPrimitiveRestart 1 0,
    a.viBindingCount, a.viAttributeCount, a.viDivisorCount]
      ++ (a.viBindings.take a.viBindingCount).flatMap encodeBinding
      ++ (a.viDivisors.take a.viDivisorCount).flatMap encodeDivisor
      ++ (a.viAttributes.take a.viAttributeCount).flatMap encodeAttribute)

/-- Fragment output fragment (`DxvkGraphicsPipelineFragmentOutputState`):
rendering info, multisample state, and fixed-size backing arrays of blend
attachments and color formats of which only the first `count` entries are
populated. -/
structure DxvkGraphicsPipelineFragmentOutputState where
  rtColorFormatCount : Nat
  rtDepthStencilFormat : Nat
  msRasterizationSamples : Nat
  msSampleMask : Nat
  cbLogicOp : Nat
  cbAttachments : List DxvkBlendAttachment
  rtColorFormats : List Nat
  deriving DecidableEq, Repr

/-- The populated-field view of a fragment output fragment. -/
structure FoKey where
  colorFormatCount : Nat
  depthStencilFormat : Nat
  rasterizationSamples : Nat
  sampleMask : Nat
  logicOp : Nat
  attachments : List DxvkBlendAttachment
  colorFormats : List Nat
  deriving DecidableEq, Repr

/-- The populated fields of a fragment output fragment: scalars, the count,
and the backing arrays truncated to the color format count. -/
def foKey (a : DxvkGraphicsPipelineFragmentOutputState) : FoKey :=
  { colorFormatCount := a.rtColorFormatCount
    depthStencilFormat := a.rtDepthStencilFormat
    rasterizationSamples := a.msRasterizationSamples
    sampleMask := a.msSampleMask
    logicOp := a.cbLogicOp
    attachments := a.cbAttachments.take a.rtColorFormatCount
    colorFormats := a.rtColorFormats.take a.rtColorFormatCount }

/-- Modelled from the spec (§4.1; the body is not part of this fragment):
`DxvkGraphicsPipelineFragmentOutputState::eq` compares exactly the populated
fields. -/
def DxvkGraphicsPipelineFragmentOutputState.eq
    (a b : DxvkGraphicsPipelineFragmentOutputState) : Bool :=
  decide (foKey a = foKey b)

/-- Flatten a blend attachment into numbers for hashing. -/
def encodeBlend (b : DxvkBlendAttachment) : List Nat :=
  [cond b.blendEnable 1 0, b.colorWriteMask]

/-- Modelled from the spec (§4.1; the body is not part of this fragment):
`DxvkGraphicsPipelineFragmentOutputState::hash` hashes exactly the populated
fields. -/
def DxvkGraphicsPipelineFragmentOutputState.hash
    (a : DxvkGraphicsPipelineFragmentOutputState) : Nat :=
  natListHash ([a.rtColorFormatCount, a.rtDepthStencilFormat,
    a.msRasterizationSamples, a.msSampleMask, a.cbLogicOp]
      ++ (a.cbAttachments.take a.rtColorFormatCount).flatMap encodeBlend
      ++ a.rtColorFormats.take a.rtColorFormatCount)

/-- Pipeline property flags (`DxvkGraphicsPipelineFlags`), precomputed at
pipeline construction. -/
structure DxvkGraphicsPipelineFlags where
  hasTransformFeedback : Bool
  hasStorageDescriptors : Bool
  deriving DecidableEq, Repr

/-- The slice of the binding layout this engine consults (non-owning
reference in the source; only the storage-descriptor property matters
here). -/
structure DxvkBindingLayoutObjects where
  storageDescriptors : Bool
  deriving DecidableEq, Repr

/-- Pipeline stages that can appear in the global barrier. -/
inductive VkPipelineStageBit where
  | vertexShader
  | tessellationControlShader
  | tessellationEvaluationShader
  | geometryShader
  | fragmentShader
  | transformFeedback
  deriving DecidableEq, Repr

/-- Access kinds that can appear in the global barrier. -/
inductive DxvkAccessFlag where
  | uniformRead
  | shaderRead
  | shaderWrite
  | transformFeedbackWrite
  | transformFeedbackCounterWrite
  deriving DecidableEq, Repr

/-- Global resource barrier (`DxvkGlobalPipelineBarrier`): the stages that
may access resources and the kinds of access, excluding render targets. -/
structure DxvkGlobalPipelineBarrier where
  stages : List VkPipelineStageBit
  access : List DxvkAccessFlag
  deriving DecidableEq, Repr

/-- The barrier access kind produced by a declared descriptor access. -/
def descriptorAccessFlag (d : DxvkDescriptorAccess) : DxvkAccessFlag :=
  match d with
  | .uniformRead => .uniformRead
  | .sampledRead => .shaderRead
  | .storageRead => .shaderRead
  | .storageWrite => .shaderWrite

/-- The pipeline stage at which a shader of the given stage executes. -/
def shaderPipelineStage (s : VkShaderStageFlagBits) : VkPipelineStageBit :=
  match s with
  | .vertex => .vertexShader
  | .tessellationControl => .tessellationControlShader
  | .tessellationEvaluation => .tessellationEvaluationShader
  | .geometry => .geometryShader
  | .fragment => .fragmentShader

/-- Barrier access kinds contributed by one nullable shader slot. -/
def shaderAccessList (o : Option DxvkShader) : List DxvkAccessFlag :=
  match o with
  | none => []
  | some sh => sh.info.resourceAccess.map descriptorAccessFlag

/-- Barrier stages contributed by one nullable shader slot. -/
def shaderStageList (o : Option DxvkShader) : List VkPipelineStageBit :=
  match o with
  | none => []
  | some sh => [shaderPipelineStage sh.info.stage]

/-- Modelled from the spec (§4.4; the constructor body is not part of this
fragment): the precomputed barrier template `m_barrier`, the union of each
active shader stage's declared descriptor accesses. -/
def mkBarrier (sh : DxvkGraphicsPipelineShaders) : DxvkGlobalPipelineBarrier :=
  { stages := shaderStageList sh.vs ++ shaderStageList sh.tcs
      ++ shaderStageList sh.tes ++ shaderStageList sh.gs ++ shaderStageList sh.fs
    access := shaderAccessList sh.vs ++ shaderAccessList sh.tcs
      ++ shaderAccessList sh.tes ++ shaderAccessList sh.gs ++ shaderAccessList sh.fs }

/-- The graphics pipeline engine's immutable configuration
(`DxvkGraphicsPipeline` without its mutable instance collection): shader
set, borrowed binding layout, precomputed barrier template and flags, and
the native creation oracle (whether the driver succeeds in building the
object for a given normalized state). -/
structure DxvkGraphicsPipeline where
  shaders : DxvkGraphicsPipelineShaders
  bindings : DxvkBindingLayoutObjects
  barrier : DxvkGlobalPipelineBarrier
  flags : DxvkGraphicsPipelineFlags
  nativeOk : DxvkGraphicsPipelineStateInfo → Bool

/-- Modelled from the spec (§3; the constructor body is not part of this
fragment): the `DxvkGraphicsPipeline` constructor precomputes the property
flags (transform feedback requires a geometry shader that declares it;
storage descriptors come from the binding layout) and the barrier
template. -/
def mkDxvkGraphicsPipeline (sh : DxvkGraphicsPipelineShaders)
    (layout : DxvkBindingLayoutObjects)
    (nativeOk : DxvkGraphicsPipelineStateInfo → Bool) : DxvkGraphicsPipeline :=
  { shaders := sh
    bindings := layout
    barrier := mkBarrier sh
    flags :=
      { hasTransformFeedback :=
          match sh.gs with
          | some g => g.info.xfbEnabled
          | none => false
        hasStorageDescriptors := layout.storageDescriptors }
    nativeOk := nativeOk }

/-- Modelled from the spec (§4.4; the body is not part of this fragment):
`DxvkGraphicsPipeline::getGlobalBarrier` returns the precomputed template,
extended with transform-feedback write access exactly when the
`HasTransformFeedback` flag is set.  It reads neither the instance
collection nor any native handle. -/
def DxvkGraphicsPipeline.getGlobalBarrier (p : DxvkGraphicsPipeline)
    (_state : DxvkGraphicsPipelineStateInfo) : DxvkGlobalPipelineBarrier :=
  if p.flags.hasTransformFeedback then
    { stages := p.barrier.stages ++ [VkPipelineStageBit.transformFeedback]
      access := p.barrier.access
        ++ [DxvkAccessFlag.transformFeedbackWrite,
            DxvkAccessFlag.transformFeedbackCounterWrite] }
  else
    p.barrier

/-- Modelled from the spec (§6; the body is not part of this fragment):
`DxvkGraphicsPipeline::getShader` returns the shader of the given stage, or
nothing when the stage is unused. -/
def DxvkGraphicsPipeline.getShader (p : DxvkGraphicsPipeline)
    (stage : VkShaderStageFlagBits) : Option DxvkShader :=
  match stage with
  | .vertex => p.shaders.vs
  | .tessellationControl => p.shaders.tcs
  | .tessellationEvaluation => p.shaders.tes
  | .geometry => p.shaders.gs
  | .fragment => p.shaders.fs

/-- A native pipeline handle.  Zero models `VK_NULL_HANDLE`; successful
creations hand out positive handles. -/
def VK_NULL_HANDLE : Nat := 0

/-- Graphics pipeline instance (`DxvkGraphicsPipelineInstance`): an
immutable pairing of a stored state vector and the native pipeline handle
compiled for it. -/
structure DxvkGraphicsPipelineInstance where
  m_stateVector : DxvkGraphicsPipelineStateInfo
  m_pipeline : Nat
  deriving DecidableEq, Repr

/-- `DxvkGraphicsPipelineInstance::isCompatible`: structural comparison of
the stored state vector against the candidate (translated from the
header). -/
def DxvkGraphicsPipelineInstance.isCompatible
    (inst : DxvkGraphicsPipelineInstance)
    (state : DxvkGraphicsPipelineStateInfo) : Bool :=
  decide (inst.m_stateVector = state)

/-- `DxvkGraphicsPipelineInstance::pipeline`: the stored native handle
(translated from the header). -/
def DxvkGraphicsPipelineInstance.pipeline
    (inst : DxvkGraphicsPipelineInstance) : Nat :=
  inst.m_pipeline

/-- The engine's mutable state: the shared instance collection
`m_pipelines` (append-only), a fresh-handle source standing in for the
driver's handle allocation, the multiset of destroyed native objects, and
the count of successful native compilations. -/
structure EngineState where
  pipelines : List DxvkGraphicsPipelineInstance
  nextHandle : Nat
  destroyed : List Nat
  compileCount : Nat
  deriving DecidableEq, Repr

/-- `DxvkGraphicsPipeline::findInstance`: scan the instance collection for
the first instance compatible with the given state vector (declared in the
header; the scan over `sync::List` follows the spec's read path). -/
def findInstance (insts : List DxvkGraphicsPipelineInstance)
    (state : DxvkGraphicsPipelineStateInfo) :
    Option DxvkGraphicsPipelineInstance :=
  insts.find? fun inst => inst.isCompatible state

/-- Modelled from the spec (§4.5; the body is not part of this fragment):
`DxvkGraphicsPipeline::validatePipelineState` checks structural consistency
of the state vector against the shader set and layout: tessellation-stage
presence must match the patch-list topology, a requested transform-feedback
stream needs a geometry shader, the storage-descriptor flag must agree with
the binding layout, and in untrusted mode the vertex layout counts are
strictly bounds-checked (relaxed when `trusted`). -/
def validatePipelineState (p : DxvkGraphicsPipeline)
    (s : DxvkGraphicsPipelineStateInfo) (trusted : Bool) : Bool :=
  let tessOk := (p.shaders.tcs.isSome || p.shaders.tes.isSome)
    == decide (s.iaPrimitiveTopology = 10)
  let xfbOk := decide (s.rsStreamIndex = 0) || p.shaders.gs.isSome
  let storageOk := p.flags.hasStorageDescriptors == p.bindings.storageDescriptors
  let strictOk := decide (s.ilBindingCount ≤ MaxNumVertexBindings)
    && decide (s.ilAttributeCount ≤ MaxNumVertexAttributes)
  tessOk && xfbOk && storageOk && (trusted || strictOk)

/-- Modelled from the spec (§4.2 step 3; the body is not part of this
fragment): `DxvkGraphicsPipeline::createInstance` validates the state,
invokes native pipeline creation, and on success appends a new instance
holding the normalized state vector; on validation or creation failure
nothing is published and no instance is returned. -/
def createInstance (p : DxvkGraphicsPipeline) (trusted : Bool)
    (es : EngineState) (ns : DxvkGraphicsPipelineStateInfo) :
    Option DxvkGraphicsPipelineInstance × EngineState :=
  if validatePipelineState p ns trusted then
    if p.nativeOk ns then
      let handle := es.nextHandle + 1
      let inst : DxvkGraphicsPipelineInstance :=
        { m_stateVector := ns, m_pipeline := handle }
      (some inst,
        { pipelines := es.pipelines ++ [inst]
          nextHandle := handle
          destroyed := es.destroyed
          compileCount := es.compileCount + 1 })
    else
      (none, es)
  else
    (none, es)

/-- Modelled from the spec (§4.2 step 3, §5): the mutually exclusive
creation path of the miss side — under the creation lock, re-scan the
collection (another thread may have raced) and only create when the state
is still missing; a missing instance after a failed creation yields the
null handle. -/
def lockedAcquire (p : DxvkGraphicsPipeline) (trusted : Bool)
    (es : EngineState) (ns : DxvkGraphicsPipelineStateInfo) :
    Nat × EngineState :=
  match findInstance es.pipelines ns with
  | some inst => (inst.pipeline, es)
  | none =>
    match createInstance p trusted es ns with
    | (some inst, es1) => (inst.pipeline, es1)
    | (none, es1) => (VK_NULL_HANDLE, es1)

/-- Modelled from the spec (§4.2; the body is not part of this fragment):
`DxvkGraphicsPipeline::getPipelineHandle` normalizes the requested state,
scans the instance collection lock-free, and on a miss enters the locked
creation path.  Runtime-issued state is validated strictly (untrusted). -/
def getPipelineHandle (p : DxvkGraphicsPipeline) (es : EngineState)
    (state : DxvkGraphicsPipelineStateInfo) : Nat × EngineState :=
  let ns := normalizeState p.shaders state
  match findInstance es.pipelines ns with
  | some inst => (inst.pipeline, es)
  | none => lockedAcquire p false es ns

/-- Modelled from the spec (§4.3, §5): the locked publish step of a build
that ran outside the lock — the double check.  If a racing thread already
published an instance for the state, the freshly built native object is
destroyed (the loser); otherwise it is wrapped as an instance and
published. -/
def publishStep (es : EngineState) (ns : DxvkGraphicsPipelineStateInfo)
    (obj : Nat) : EngineState :=
  match findInstance es.pipelines ns with
  | some _ => { es with destroyed := obj :: es.destroyed }
  | none =>
    { es with pipelines := es.pipelines ++ [{ m_stateVector := ns, m_pipeline := obj }] }

/-- Modelled from the spec (§4.3; the body is not part of this fragment):
`DxvkGraphicsPipeline::compilePipeline` performs the miss-path work off the
draw path for a cache-sourced (trusted) state: on a miss it builds the
native object outside the lock and then runs the locked publish step with
its double check. -/
def compilePipeline (p : DxvkGraphicsPipeline) (es : EngineState)
    (state : DxvkGraphicsPipelineStateInfo) : EngineState :=
  let ns := normalizeState p.shaders state
  match findInstance es.pipelines ns with
  | some _ => es
  | none =>
    if validatePipelineState p ns true && p.nativeOk ns then
      let obj := es.nextHandle + 1
      publishStep
        { es with nextHandle := obj, compileCount := es.compileCount + 1 } ns obj
    else
      es

/-- The full engine: immutable configuration plus the mutable instance
collection. -/
structure DxvkGraphicsPipelineEngine where
  pipe : DxvkGraphicsPipeline
  st : EngineState

/-- `getPipelineHandle` at the level of the full engine. -/
def engineGetPipelineHandle (e : DxvkGraphicsPipelineEngine)
    (state : DxvkGraphicsPipelineStateInfo) :
    Nat × DxvkGraphicsPipelineEngine :=
  let r := getPipelineHandle e.pipe e.st state
  (r.1, { pipe := e.pipe, st := r.2 })

/-- `compilePipeline` at the level of the full engine. -/
def engineCompilePipeline (e : DxvkGraphicsPipelineEngine)
    (state : DxvkGraphicsPipelineStateInfo) : DxvkGraphicsPipelineEngine :=
  { pipe := e.pipe, st := compilePipeline e.pipe e.st state }

/-- `getGlobalBarrier` at the level of the full engine. -/
def engineGetGlobalBarrier (e : DxvkGraphicsPipelineEngine)
    (state : DxvkGraphicsPipelineStateInfo) : DxvkGlobalPipelineBarrier :=
  e.pipe.getGlobalBarrier state

/-- The vertex-input hash as a function of the populated-field view alone. -/
def viHashOfKey (k : ViKey) : Nat :=
  natListHash ([k.topology, cond k.restart 1 0, k.bindingCount,
    k.attributeCount, k.divisorCount]
      ++ k.bindings.flatMap encodeBinding
      ++ k.divisors.flatMap encodeDivisor
      ++ k.attributes.flatMap encodeAttribute)

/-- The fragment-output hash as a function of the populated-field view
alone. -/
def foHashOfKey (k : FoKey) : Nat :=
  natListHash ([k.colorFormatCount, k.depthStencilFormat,
    k.rasterizationSamples, k.sampleMask, k.logicOp]
      ++ k.attachments.flatMap encodeBlend
      ++ k.colorFormats)

/-! ## Concrete example configurations -/

/-- Example vertex shader: consumes attribute location 0, declares one
uniform read. -/
def exVs : DxvkShader :=
  { id := 1, shaderHash := 33,
    info := { stage := .vertex, outputMask := 0, inputMask := 1,
              xfbEnabled := false, resourceAccess := [.uniformRead] } }

/-- Example fragment shader: writes render targets 0 and 2 (output mask
0b101), declares one sampled read. -/
def exFs : DxvkShader :=
  { id := 2, shaderHash := 77,
    info := { stage := .fragment, outputMask := 5, inputMask := 0,
              xfbEnabled := false, resourceAccess := [.sampledRead] } }

/-- Example shader set: vertex and fragment stages only. -/
def exShaders : DxvkGraphicsPipelineShaders :=
  { vs := some exVs, tcs := none, tes := none, gs := none, fs := some exFs }

/-- A shader set with a fragment shader misplaced in the vertex slot. -/
def exBadShaders : DxvkGraphicsPipelineShaders :=
  { vs := some exFs, tcs := none, tes := none, gs := none, fs := none }

/-- Example binding layout without storage descriptors. -/
def exLayout : DxvkBindingLayoutObjects :=
  { storageDescriptors := false }

/-- Example engine configuration whose driver always succeeds. -/
def exPipe : DxvkGraphicsPipeline :=
  mkDxvkGraphicsPipeline exShaders exLayout fun _ => true

/-- The empty engine state. -/
def esEmpty : EngineState :=
  { pipelines := [], nextHandle := 0, destroyed := [], compileCount := 0 }

/-- Example state vector: triangle list, one vertex binding and attribute,
formats for render targets 0 and 2, nothing for slot 1. -/
def exState1 : DxvkGraphicsPipelineStateInfo :=
  { iaPrimitiveTopology := 4, iaPatchVertexCount := 0,
    ilBindingCount := 1, ilAttributeCount := 1,
    ilBindings := [{ binding := 0, stride := 16, inputRate := 0, divisor := 0 }],
    ilAttributes := [{ location := 0, binding := 0, format := 1, offset := 0 }],
    rsStreamIndex := 0, msSampleMask := 15,
    omFormats := [37, 0, 38], omBlend := [] }

/-- Example state vector differing from `exState1` only in the format
supplied for the unused render-target slot 1, which the fragment shader's
output mask does not cover. -/
def exState2 : DxvkGraphicsPipelineStateInfo :=
  { exState1 with omFormats := [37, 99, 38] }

/-- Example state vector with a different format on the written render
target 0. -/
def exState3 : DxvkGraphicsPipelineStateInfo :=
  { exState1 with omFormats := [52, 0, 38] }

/-- A state vector that fails untrusted validation: it requests transform
feedback stream 1 while the shader set has no geometry shader. -/
def exBadState : DxvkGraphicsPipelineStateInfo :=
  { exState1 with rsStreamIndex := 1 }

/-- An engine state already holding one compiled instance for the
normalized form of `exState1`. -/
def esOne : EngineState :=
  { pipelines := [{ m_stateVector := normalizeState exShaders exState1,
                    m_pipeline := 7 }],
    nextHandle := 7, destroyed := [], compileCount := 1 }

/-- Example populated vertex-input fragment. -/
def exVi1 : DxvkGraphicsPipelineVertexInputState :=
  { iaPrimitiveTopology := 4, iaPrimitiveRestart := false,
    viBindingCount := 1, viAttributeCount := 1, viDivisorCount := 0,
    viBindings := [{ binding := 0, stride := 16, inputRate := 0, divisor := 0 }],
    viDivisors := [],
    viAttributes := [{ location := 0, binding := 0, format := 1, offset := 0 }] }

/-- The same vertex-input fragment with junk in the backing-array entries
beyond the population counts. -/
def exVi2 : DxvkGraphicsPipelineVertexInputState :=
  { exVi1 with
    viBindings := exVi1.viBindings
      ++ [{ binding := 9, stride := 9, inputRate := 9, divisor := 9 }],
    viDivisors := [{ binding := 8, divisor := 8 }],
    viAttributes := exVi1.viAttributes
      ++ [{ location := 7, binding := 7, format := 7, offset := 7 }] }

/-- Example populated fragment-output fragment. -/
def exFo1 : DxvkGraphicsPipelineFragmentOutputState :=
  { rtColorFormatCount := 2, rtDepthStencilFormat := 126,
    msRasterizationSamples := 1, msSampleMask := 15, cbLogicOp := 0,
    cbAttachments := [{ blendEnable := true, colorWriteMask := 15 },
                      { blendEnable := false, colorWriteMask := 15 }],
    rtColorFormats := [37, 38] }

/-- The same fragment-output fragment with junk in the backing-array
entries beyond the population count. -/
def exFo2 : DxvkGraphicsPipelineFragmentOutputState :=
  { exFo1 with
    cbAttachments := exFo1.cbAttachments
      ++ [{ blendEnable := true, colorWriteMask := 3 }],
    rtColorFormats := exFo1.rtColorFormats ++ [99] }

/-! ## Helper lemmas -/

/-- A successful scan of a collection still succeeds, with the same
instance, after any elements are appended. -/
theorem findInstance_append_of_some {l l2 : List DxvkGraphicsPipelineInstance}
    {ns : DxvkGraphicsPipelineStateInfo} {inst : DxvkGraphicsPipelineInstance}
    (h : findInstance l ns = some inst) :
    findInstance (l ++ l2) ns = some inst := by
  unfold findInstance at h ⊢
  rw [List.find?_append, h]
  rfl

/-- A failed scan of a collection reduces, after an append, to a scan of the
appended elements. -/
theorem findInstance_append_of_none {l l2 : List DxvkGraphicsPipelineInstance}
    {ns : DxvkGraphicsPipelineStateInfo}
    (h : findInstance l ns = none) :
    findInstance (l ++ l2) ns = findInstance l2 ns := by
  unfold findInstance at h ⊢
  rw [List.find?_append, h]
  rfl

/-- A freshly created instance for a state vector is found by a scan for
that state vector. -/
theorem findInstance_singleton (ns : DxvkGraphicsPipelineStateInfo) (h : Nat) :
    findInstance [{ m_stateVector := ns, m_pipeline := h }] ns
      = some { m_stateVector := ns, m_pipeline := h } := by
  simp [findInstance, List.find?, DxvkGraphicsPipelineInstance.isCompatible]

/-- A failed scan means the collection holds no compatible instance. -/
theorem countP_eq_zero_of_findInstance_none
    {l : List DxvkGraphicsPipelineInstance}
    {ns : DxvkGraphicsPipelineStateInfo}
    (h : findInstance l ns = none) :
    l.countP (fun i => i.isCompatible ns) = 0 := by
  rw [List.countP_eq_zero]
  intro x hx
  have := List.find?_eq_none.mp h x hx
  simp_all

/-- `getPipelineHandle` is the locked acquisition path applied to the
normalized state: the preceding lock-free scan only short-circuits the same
result. -/
theorem getPipelineHandle_eq_lockedAcquire (p : DxvkGraphicsPipeline)
    (es : EngineState) (s : DxvkGraphicsPipelineStateInfo) :
    getPipelineHandle p es s
      = lockedAcquire p false es (normalizeState p.shaders s) := by
  unfold getPipelineHandle lockedAcquire
  cases h : findInstance es.pipelines (normalizeState p.shaders s) <;> simp [h]

/-- On a miss with valid state and a succeeding driver, the locked
acquisition path publishes exactly one new instance holding a fresh handle
and counts one compilation. -/
theorem lockedAcquire_miss_success (p : DxvkGraphicsPipeline) (tr : Bool)
    (es : EngineState) (ns : DxvkGraphicsPipelineStateInfo)
    (h0 : findInstance es.pipelines ns = none)
    (hv : validatePipelineState p ns tr = true)
    (hn : p.nativeOk ns = true) :
    lockedAcquire p tr es ns
      = (es.nextHandle + 1,
          { pipelines := es.pipelines
              ++ [{ m_stateVector := ns, m_pipeline := es.nextHandle + 1 }]
            nextHandle := es.nextHandle + 1
            destroyed := es.destroyed
            compileCount := es.compileCount + 1 }) := by
  simp [lockedAcquire, createInstance, h0, hv, hn,
    DxvkGraphicsPipelineInstance.pipeline]

/-- Acquiring the same normalized state twice in a row (second acquisition
starting from the state the first one produced) returns the same handle and
leaves the engine state untouched. -/
theorem lockedAcquire_idem (p : DxvkGraphicsPipeline) (tr : Bool)
    (es : EngineState) (ns : DxvkGraphicsPipelineStateInfo) :
    lockedAcquire p tr (lockedAcquire p tr es ns).2 ns
      = lockedAcquire p tr es ns := by
  cases h0 : findInstance es.pipelines ns with
  | some inst =>
    simp [lockedAcquire, h0]
  | none =>
    cases hv : validatePipelineState p ns tr with
    | false =>
      simp [lockedAcquire, createInstance, h0, hv]
    | true =>
      cases hn : p.nativeOk ns with
      | false =>
        simp [lockedAcquire, createInstance, h0, hv, hn]
      | true =>
        rw [lockedAcquire_miss_success p tr es ns h0 hv hn]
        have hfind : findInstance (es.pipelines
            ++ [{ m_stateVector := ns, m_pipeline := es.nextHandle + 1 }]) ns
            = some { m_stateVector := ns, m_pipeline := es.nextHandle + 1 } := by
          rw [findInstance_append_of_none h0, findInstance_singleton]
        simp [lockedAcquire, hfind, DxvkGraphicsPipelineInstance.pipeline]

/-- `getPipelineHandle` only ever appends to the instance collection. -/
theorem getPipelineHandle_pipelines_shape (p : DxvkGraphicsPipeline)
    (es : EngineState) (s : DxvkGraphicsPipelineStateInfo) :
    ∃ tail, (getPipelineHandle p es s).2.pipelines = es.pipelines ++ tail := by
  rw [getPipelineHandle_eq_lockedAcquire]
  cases h0 : findInstance es.pipelines (normalizeState p.shaders s) with
  | some inst =>
    exact ⟨[], by simp [lockedAcquire, h0]⟩
  | none =>
    cases hv : validatePipelineState p (normalizeState p.shaders s) false with
    | false =>
      exact ⟨[], by simp [lockedAcquire, createInstance, h0, hv]⟩
    | true =>
      cases hn : p.nativeOk (normalizeState p.shaders s) with
      | false =>
        exact ⟨[], by simp [lockedAcquire, createInstance, h0, hv, hn]⟩
      | true =>
        refine ⟨[{ m_stateVector := normalizeState p.shaders s,
                   m_pipeline := es.nextHandle + 1 }], ?_⟩
        rw [lockedAcquire_miss_success p false es _ h0 hv hn]

/-- `publishStep` only ever appends to the instance collection. -/
theorem publishStep_pipelines_shape (es : EngineState)
    (ns : DxvkGraphicsPipelineStateInfo) (obj : Nat) :
    ∃ tail, (publishStep es ns obj).pipelines = es.pipelines ++ tail := by
  cases h : findInstance es.pipelines ns with
  | some inst => exact ⟨[], by simp [publishStep, h]⟩
  | none =>
    exact ⟨[{ m_stateVector := ns, m_pipeline := obj }], by simp [publishStep, h]⟩

/-- `compilePipeline` only ever appends to the instance collection. -/
theorem compilePipeline_pipelines_shape (p : DxvkGraphicsPipeline)
    (es : EngineState) (s : DxvkGraphicsPipelineStateInfo) :
    ∃ tail, (compilePipeline p es s).pipelines = es.pipelines ++ tail := by
  unfold compilePipeline
  cases h0 : findInstance es.pipelines (normalizeState p.shaders s) with
  | some inst => exact ⟨[], by simp [h0]⟩
  | none =>
    cases hc : validatePipelineState p (normalizeState p.shaders s) true
        && p.nativeOk (normalizeState p.shaders s) with
    | false => exact ⟨[], by simp [h0, hc]⟩
    | true =>
      simp only [h0, hc, if_true]
      exact publishStep_pipelines_shape _ _ _

/-- Descriptor accesses never produce transform-feedback write access. -/
theorem descriptorAccessFlag_ne_xfbWrite (d : DxvkDescriptorAccess) :
    descriptorAccessFlag d ≠ DxvkAccessFlag.transformFeedbackWrite := by
  cases d <;> simp [descriptorAccessFlag]

/-- No shader slot contributes transform-feedback write access to the
precomputed barrier template. -/
theorem xfbWrite_not_mem_shaderAccessList (o : Option DxvkShader) :
    DxvkAccessFlag.transformFeedbackWrite ∉ shaderAccessList o := by
  cases o with
  | none => simp [shaderAccessList]
  | some sh =>
    intro hmem
    simp only [shaderAccessList] at hmem
    rcases List.mem_map.mp hmem with ⟨d, _, hd⟩
    exact descriptorAccessFlag_ne_xfbWrite d hd

/-- The precomputed barrier template never contains transform-feedback
write access. -/
theorem xfbWrite_not_mem_mkBarrier (sh : DxvkGraphicsPipelineShaders) :
    DxvkAccessFlag.transformFeedbackWrite ∉ (mkBarrier sh).access := by
  simp only [mkBarrier, List.mem_append, not_or]
  exact ⟨⟨⟨⟨xfbWrite_not_mem_shaderAccessList _,
    xfbWrite_not_mem_shaderAccessList _⟩,
    xfbWrite_not_mem_shaderAccessList _⟩,
    xfbWrite_not_mem_shaderAccessList _⟩,
    xfbWrite_not_mem_shaderAccessList _⟩

/-- `validateShaderType` agrees with the spec-level slot check. -/
theorem validateShaderType_eq_specStageMatches (o : Option DxvkShader)
    (stage : VkShaderStageFlagBits) :
    DxvkGraphicsPipelineShaders.validateShaderType o stage
      = specStageMatches o stage := by
  cases o <;> rfl

/-- The vertex-input hash reads exactly the populated-field view. -/
theorem vi_hash_eq_key (a : DxvkGraphicsPipelineVertexInputState) :
    a.hash = viHashOfKey (viKey a) := rfl

/-- The fragment-output hash reads exactly the populated-field view. -/
theorem fo_hash_eq_key (a : DxvkGraphicsPipelineFragmentOutputState) :
    a.hash = foHashOfKey (foKey a) := rfl

end Dxvk


/-! ## Claims -/

namespace Dxvk

/-- Claim C3: `DxvkGraphicsPipelineShaders::validate()` returns false
whenever some non-null shader slot holds a shader whose declared stage does
not match the slot's structural position, and returns true when every
non-null slot's declared stage matches its position. -/
theorem validate_iff_slot_stages_match (s : DxvkGraphicsPipelineShaders) :
    s.validate = true
      ↔ (specStageMatches s.vs .vertex = true
        ∧ specStageMatches s.tcs .tessellationControl = true
        ∧ specStageMatches s.tes .tessellationEvaluation = true
        ∧ specStageMatches s.gs .geometry = true
        ∧ specStageMatches s.fs .fragment = true) := by
  simp only [DxvkGraphicsPipelineShaders.validate,
    validateShaderType_eq_specStageMatches, Bool.and_eq_true, and_assoc]

/-- Witness for claim C3: on the concrete shader set with a fragment shader
misplaced in the vertex slot, validation fails. -/
theorem validate_iff_slot_stages_match_witness :
    DxvkGraphicsPipelineShaders.validate exBadShaders = false := by
  have h := validate_iff_slot_stages_match exBadShaders
  revert h
  decide

/-- Claim C10: a shader set in which every one of the five shader slots is
null passes validation, because `validateShaderType` accepts a null shader
for any stage. -/
theorem validate_all_null_slots :
    DxvkGraphicsPipelineShaders.validate
      { vs := none, tcs := none, tes := none, gs := none, fs := none } = true := by
  decide

/-- Claim C4: for every state vector, when the shader set has no geometry
shader (hence the `HasTransformFeedback` flag is not set), the barrier
returned by `getGlobalBarrier` does not include transform-feedback write
access, even if the state vector's rasterization settings nominally request
a stream index. -/
theorem getGlobalBarrier_no_xfb_write (sh : DxvkGraphicsPipelineShaders)
    (layout : DxvkBindingLayoutObjects)
    (nativeOk : DxvkGraphicsPipelineStateInfo → Bool)
    (state : DxvkGraphicsPipelineStateInfo)
    (hgs : sh.gs = none) :
    (mkDxvkGraphicsPipeline sh layout nativeOk).flags.hasTransformFeedback = false
    ∧ DxvkAccessFlag.transformFeedbackWrite
        ∉ ((mkDxvkGraphicsPipeline sh layout nativeOk).getGlobalBarrier state).access := by
  have hflag : (mkDxvkGraphicsPipeline sh layout nativeOk).flags.hasTransformFeedback
      = false := by
    simp [mkDxvkGraphicsPipeline, hgs]
  refine ⟨hflag, ?_⟩
  have hb : (mkDxvkGraphicsPipeline sh layout nativeOk).getGlobalBarrier state
      = (mkDxvkGraphicsPipeline sh layout nativeOk).barrier := by
    simp [DxvkGraphicsPipeline.getGlobalBarrier, hflag]
  rw [hb]
  show DxvkAccessFlag.transformFeedbackWrite ∉ (mkBarrier sh).access
  exact xfbWrite_not_mem_mkBarrier sh

/-- Witness for claim C4: the concrete engine built from vertex and fragment
shaders only, queried with a state vector that requests transform-feedback
stream 1, reports no transform-feedback write access. -/
theorem getGlobalBarrier_no_xfb_write_witness :
    (mkDxvkGraphicsPipeline exShaders exLayout fun _ => true).flags.hasTransformFeedback
        = false
    ∧ DxvkAccessFlag.transformFeedbackWrite
        ∉ ((mkDxvkGraphicsPipeline exShaders exLayout fun _ => true).getGlobalBarrier
            exBadState).access :=
  getGlobalBarrier_no_xfb_write exShaders exLayout (fun _ => true) exBadState (by decide)

/-- Claim C8: `getGlobalBarrier` is a pure, deterministic function of the
engine's immutable configuration and the given state vector.  Running
`getPipelineHandle` or `compilePipeline` first does not change its result,
and the result is invariant under arbitrary replacement of the mutable
instance collection. -/
theorem getGlobalBarrier_pure (e : DxvkGraphicsPipelineEngine)
    (s t : DxvkGraphicsPipelineStateInfo) :
    engineGetGlobalBarrier (engineGetPipelineHandle e t).2 s
        = engineGetGlobalBarrier e s
    ∧ engineGetGlobalBarrier (engineCompilePipeline e t) s
        = engineGetGlobalBarrier e s
    ∧ ∀ st1 st2 : EngineState,
        engineGetGlobalBarrier { pipe := e.pipe, st := st1 } s
          = engineGetGlobalBarrier { pipe := e.pipe, st := st2 } s :=
  ⟨rfl, rfl, fun _ _ => rfl⟩


/-- Claim C1: two state vectors that differ only in fields outside every
fragment's normalized identity (equivalently, whose normalized forms agree)
resolve to the same instance: `getPipelineHandle` returns the same handle
for both, and the second call adds nothing, because the stored state vector
of an instance is already normalized before storage and `isCompatible`
therefore realizes normalized identity. -/
theorem getPipelineHandle_normalized_identity (p : DxvkGraphicsPipeline)
    (es : EngineState) (s1 s2 : DxvkGraphicsPipelineStateInfo)
    (h : normalizeState p.shaders s1 = normalizeState p.shaders s2) :
    (getPipelineHandle p (getPipelineHandle p es s1).2 s2).1
        = (getPipelineHandle p es s1).1
    ∧ (getPipelineHandle p (getPipelineHandle p es s1).2 s2).2
        = (getPipelineHandle p es s1).2 := by
  have e2 : getPipelineHandle p (getPipelineHandle p es s1).2 s2
      = lockedAcquire p false (getPipelineHandle p es s1).2
          (normalizeState p.shaders s1) := by
    rw [getPipelineHandle_eq_lockedAcquire, h]
  have e1 : getPipelineHandle p es s1
      = lockedAcquire p false es (normalizeState p.shaders s1) :=
    getPipelineHandle_eq_lockedAcquire p es s1
  constructor
  · rw [e2, e1, lockedAcquire_idem]
  · rw [e2, e1, lockedAcquire_idem]

/-- Witness for claim C1: the concrete states `exState1` and `exState2`
differ only in the format of render-target slot 1, which the fragment
shader's output mask does not cover; both calls return the same handle and
the second call changes nothing. -/
theorem getPipelineHandle_normalized_identity_witness :
    (getPipelineHandle exPipe (getPipelineHandle exPipe esEmpty exState1).2 exState2).1
        = (getPipelineHandle exPipe esEmpty exState1).1
    ∧ (getPipelineHandle exPipe (getPipelineHandle exPipe esEmpty exState1).2 exState2).2
        = (getPipelineHandle exPipe esEmpty exState1).2 :=
  getPipelineHandle_normalized_identity exPipe esEmpty exState1 exState2 (by decide)

/-- Claim C2: a second `getPipelineHandle` call with the same raw state
vector is a cache hit: same handle, engine state untouched.  When two
callers both miss on the lock-free scan and their locked sections execute
in either order, both observe the same fresh handle, exactly one native
object is compiled, and exactly one compatible instance becomes visible. -/
theorem getPipelineHandle_single_compile (p : DxvkGraphicsPipeline)
    (es0 : EngineState) (s ns : DxvkGraphicsPipelineStateInfo)
    (_hns : ns = normalizeState p.shaders s)
    (h0 : findInstance es0.pipelines ns = none)
    (hv : validatePipelineState p ns false = true)
    (hn : p.nativeOk ns = true) :
    ((getPipelineHandle p (getPipelineHandle p es0 s).2 s).1
        = (getPipelineHandle p es0 s).1
      ∧ (getPipelineHandle p (getPipelineHandle p es0 s).2 s).2
        = (getPipelineHandle p es0 s).2)
    ∧ (lockedAcquire p false (lockedAcquire p false es0 ns).2 ns).1
        = (lockedAcquire p false es0 ns).1
    ∧ (lockedAcquire p false (lockedAcquire p false es0 ns).2 ns).2
        = (lockedAcquire p false es0 ns).2
    ∧ (lockedAcquire p false es0 ns).1 = es0.nextHandle + 1
    ∧ (lockedAcquire p false es0 ns).2.compileCount = es0.compileCount + 1
    ∧ (lockedAcquire p false es0 ns).2.pipelines.countP
        (fun i => i.isCompatible ns) = 1 := by
  have hms := lockedAcquire_miss_success p false es0 ns h0 hv hn
  have hidem := lockedAcquire_idem p false es0 ns
  refine ⟨?_, ?_, ?_, ?_, ?_, ?_⟩
  · exact getPipelineHandle_normalized_identity p es0 s s rfl
  · rw [hidem]
  · rw [hidem]
  · rw [hms]
  · rw [hms]
  · rw [hms]
    simp only [List.countP_append]
    rw [countP_eq_zero_of_findInstance_none h0]
    simp [DxvkGraphicsPipelineInstance.isCompatible, List.countP_cons]

/-- Witness for claim C2: starting from the empty engine state, the first
concrete request compiles once, publishes one instance, and every further
acquisition of the same state observes handle 1. -/
theorem getPipelineHandle_single_compile_witness :
    (((getPipelineHandle exPipe (getPipelineHandle exPipe esEmpty exState1).2 exState1).1
        = (getPipelineHandle exPipe esEmpty exState1).1
      ∧ (getPipelineHandle exPipe (getPipelineHandle exPipe esEmpty exState1).2 exState1).2
        = (getPipelineHandle exPipe esEmpty exState1).2)
    ∧ (lockedAcquire exPipe false
          (lockedAcquire exPipe false esEmpty (normalizeState exShaders exState1)).2
          (normalizeState exShaders exState1)).1
        = (lockedAcquire exPipe false esEmpty (normalizeState exShaders exState1)).1
    ∧ (lockedAcquire exPipe false
          (lockedAcquire exPipe false esEmpty (normalizeState exShaders exState1)).2
          (normalizeState exShaders exState1)).2
        = (lockedAcquire exPipe false esEmpty (normalizeState exShaders exState1)).2
    ∧ (lockedAcquire exPipe false esEmpty (normalizeState exShaders exState1)).1
        = esEmpty.nextHandle + 1
    ∧ (lockedAcquire exPipe false esEmpty (normalizeState exShaders exState1)).2.compileCount
        = esEmpty.compileCount + 1
    ∧ (lockedAcquire exPipe false esEmpty
          (normalizeState exShaders exState1)).2.pipelines.countP
        (fun i => i.isCompatible (normalizeState exShaders exState1)) = 1) :=
  getPipelineHandle_single_compile exPipe esEmpty exState1
    (normalizeState exShaders exState1) (by decide) (by decide) (by decide) (by decide)


/-- Claim C5: instances are never removed and never mutated: both mutating
operations only ever append to the instance collection, and any previously
published (state vector, handle) pair is still found, unchanged, after any
`getPipelineHandle` or `compilePipeline` call. -/
theorem instances_append_only (p : DxvkGraphicsPipeline) (es : EngineState)
    (s ns0 : DxvkGraphicsPipelineStateInfo)
    (inst : DxvkGraphicsPipelineInstance)
    (h : findInstance es.pipelines ns0 = some inst) :
    (∃ tail, (getPipelineHandle p es s).2.pipelines = es.pipelines ++ tail)
    ∧ (∃ tail, (compilePipeline p es s).pipelines = es.pipelines ++ tail)
    ∧ findInstance (getPipelineHandle p es s).2.pipelines ns0 = some inst
    ∧ findInstance (compilePipeline p es s).pipelines ns0 = some inst := by
  obtain ⟨t1, ht1⟩ := getPipelineHandle_pipelines_shape p es s
  obtain ⟨t2, ht2⟩ := compilePipeline_pipelines_shape p es s
  refine ⟨⟨t1, ht1⟩, ⟨t2, ht2⟩, ?_, ?_⟩
  · rw [ht1]
    exact findInstance_append_of_some h
  · rw [ht2]
    exact findInstance_append_of_some h

/-- Witness for claim C5: the engine state already holding the instance
(normalized `exState1`, handle 7) keeps that pair visible across a
`getPipelineHandle` call for a different state and a `compilePipeline`
call. -/
theorem instances_append_only_witness :
    (∃ tail, (getPipelineHandle exPipe esOne exState3).2.pipelines
        = esOne.pipelines ++ tail)
    ∧ (∃ tail, (compilePipeline exPipe esOne exState3).pipelines
        = esOne.pipelines ++ tail)
    ∧ findInstance (getPipelineHandle exPipe esOne exState3).2.pipelines
        (normalizeState exShaders exState1)
        = some { m_stateVector := normalizeState exShaders exState1, m_pipeline := 7 }
    ∧ findInstance (compilePipeline exPipe esOne exState3).pipelines
        (normalizeState exShaders exState1)
        = some { m_stateVector := normalizeState exShaders exState1, m_pipeline := 7 } :=
  instances_append_only exPipe esOne exState3 (normalizeState exShaders exState1)
    { m_stateVector := normalizeState exShaders exState1, m_pipeline := 7 } (by decide)

/-- Claim C6: when two threads both miss and both build a native object for
the same state, the serialized double-check publishes exactly one of the
fresh objects as the single visible instance and destroys the loser's
object instead of leaking it. -/
theorem double_check_resolves_race (es : EngineState)
    (ns : DxvkGraphicsPipelineStateInfo) (o1 o2 : Nat)
    (h0 : findInstance es.pipelines ns = none)
    (hne : o1 ≠ o2)
    (hd1 : o1 ∉ es.destroyed)
    (hv2 : o2 ∉ es.pipelines.map DxvkGraphicsPipelineInstance.pipeline) :
    (publishStep (publishStep es ns o1) ns o2).pipelines
        = es.pipelines ++ [{ m_stateVector := ns, m_pipeline := o1 }]
    ∧ (publishStep (publishStep es ns o1) ns o2).destroyed = o2 :: es.destroyed
    ∧ o2 ∉ (publishStep (publishStep es ns o1) ns o2).pipelines.map
        DxvkGraphicsPipelineInstance.pipeline
    ∧ o1 ∉ (publishStep (publishStep es ns o1) ns o2).destroyed
    ∧ (publishStep (publishStep es ns o1) ns o2).pipelines.countP
        (fun i => i.isCompatible ns) = 1 := by
  have hp1 : publishStep es ns o1
      = { es with pipelines := es.pipelines
            ++ [{ m_stateVector := ns, m_pipeline := o1 }] } := by
    simp [publishStep, h0]
  have hfind : findInstance (es.pipelines
      ++ [{ m_stateVector := ns, m_pipeline := o1 }]) ns
      = some { m_stateVector := ns, m_pipeline := o1 } := by
    rw [findInstance_append_of_none h0, findInstance_singleton]
  have hp2 : publishStep (publishStep es ns o1) ns o2
      = { pipelines := es.pipelines ++ [{ m_stateVector := ns, m_pipeline := o1 }],
          nextHandle := es.nextHandle,
          destroyed := o2 :: es.destroyed,
          compileCount := es.compileCount } := by
    rw [hp1]
    simp [publishStep, hfind]
  rw [hp2]
  refine ⟨rfl, rfl, ?_, ?_, ?_⟩
  · simp only [List.map_append, List.mem_append, not_or]
    constructor
    · exact hv2
    · simp [DxvkGraphicsPipelineInstance.pipeline]
      exact fun hcontra => hne hcontra.symm
  · simp only [List.mem_cons, not_or]
    exact ⟨hne, hd1⟩
  · simp only [List.countP_append]
    rw [countP_eq_zero_of_findInstance_none h0]
    simp [DxvkGraphicsPipelineInstance.isCompatible, List.countP_cons]

/-- Witness for claim C6: two fresh objects 8 and 9 built for the same
normalized state race their publish steps against the empty engine state;
object 8 is published as the only instance and object 9 is destroyed. -/
theorem double_check_resolves_race_witness :
    (publishStep (publishStep esEmpty (normalizeState exShaders exState1) 8)
        (normalizeState exShaders exState1) 9).pipelines
      = esEmpty.pipelines
        ++ [{ m_stateVector := normalizeState exShaders exState1, m_pipeline := 8 }]
    ∧ (publishStep (publishStep esEmpty (normalizeState exShaders exState1) 8)
        (normalizeState exShaders exState1) 9).destroyed = 9 :: esEmpty.destroyed
    ∧ 9 ∉ (publishStep (publishStep esEmpty (normalizeState exShaders exState1) 8)
        (normalizeState exShaders exState1) 9).pipelines.map
          DxvkGraphicsPipelineInstance.pipeline
    ∧ 8 ∉ (publishStep (publishStep esEmpty (normalizeState exShaders exState1) 8)
        (normalizeState exShaders exState1) 9).destroyed
    ∧ (publishStep (publishStep esEmpty (normalizeState exShaders exState1) 8)
        (normalizeState exShaders exState1) 9).pipelines.countP
        (fun i => i.isCompatible (normalizeState exShaders exState1)) = 1 :=
  double_check_resolves_race esEmpty (normalizeState exShaders exState1) 8 9
    (by decide) (by decide) (by decide) (by decide)

/-- Claim C7: no exception crosses the engine boundary; on the miss path,
when untrusted validation fails or native creation fails,
`getPipelineHandle` returns the null-handle sentinel and publishes
nothing. -/
theorem getPipelineHandle_failure_null (p : DxvkGraphicsPipeline)
    (es : EngineState) (s : DxvkGraphicsPipelineStateInfo)
    (h0 : findInstance es.pipelines (normalizeState p.shaders s) = none)
    (hfail : validatePipelineState p (normalizeState p.shaders s) false = false
      ∨ p.nativeOk (normalizeState p.shaders s) = false) :
    getPipelineHandle p es s = (VK_NULL_HANDLE, es) := by
  rw [getPipelineHandle_eq_lockedAcquire]
  rcases hfail with hv | hn
  · simp [lockedAcquire, createInstance, h0, hv]
  · cases hv : validatePipelineState p (normalizeState p.shaders s) false with
    | false => simp [lockedAcquire, createInstance, h0, hv]
    | true => simp [lockedAcquire, createInstance, h0, hv, hn]

/-- Witness for claim C7: the concrete state requesting transform-feedback
stream 1 without a geometry shader fails untrusted validation, and the
request resolves to the null handle with the engine state unchanged. -/
theorem getPipelineHandle_failure_null_witness :
    getPipelineHandle exPipe esEmpty exBadState = (VK_NULL_HANDLE, esEmpty) :=
  getPipelineHandle_failure_null exPipe esEmpty exBadState (by decide)
    (Or.inl (by decide))


/-- Claim C9: equality and hashing agree for the hashable state values: for
the shader set and for each state fragment, values that compare equal hash
identically, and equality and hashing cover exactly the populated fields,
so values agreeing on their populated-field views are equal and hash
equal regardless of trailing backing-array entries. -/
theorem eq_hash_agree (a b : DxvkGraphicsPipelineShaders)
    (c d c2 d2 : DxvkGraphicsPipelineVertexInputState)
    (e f e2 f2 : DxvkGraphicsPipelineFragmentOutputState)
    (h1 : DxvkGraphicsPipelineShaders.eq a b = true)
    (h2 : DxvkGraphicsPipelineVertexInputState.eq c d = true)
    (h3 : viKey c2 = viKey d2)
    (h4 : DxvkGraphicsPipelineFragmentOutputState.eq e f = true)
    (h5 : foKey e2 = foKey f2) :
    DxvkGraphicsPipelineShaders.hash a = DxvkGraphicsPipelineShaders.hash b
    ∧ c.hash = d.hash
    ∧ DxvkGraphicsPipelineVertexInputState.eq c2 d2 = true
    ∧ c2.hash = d2.hash
    ∧ e.hash = f.hash
    ∧ DxvkGraphicsPipelineFragmentOutputState.eq e2 f2 = true
    ∧ e2.hash = f2.hash := by
  simp only [DxvkGraphicsPipelineShaders.eq, Bool.and_eq_true,
    decide_eq_true_eq] at h1
  obtain ⟨⟨⟨⟨hvs, htcs⟩, htes⟩, hgs⟩, hfs⟩ := h1
  have hk2 : viKey c = viKey d := of_decide_eq_true h2
  have hk4 : foKey e = foKey f := of_decide_eq_true h4
  refine ⟨?_, ?_, ?_, ?_, ?_, ?_, ?_⟩
  · simp [DxvkGraphicsPipelineShaders.hash, hvs, htcs, htes, hgs, hfs]
  · rw [vi_hash_eq_key, vi_hash_eq_key, hk2]
  · simp [DxvkGraphicsPipelineVertexInputState.eq, h3]
  · rw [vi_hash_eq_key, vi_hash_eq_key, h3]
  · rw [fo_hash_eq_key, fo_hash_eq_key, hk4]
  · simp [DxvkGraphicsPipelineFragmentOutputState.eq, h5]
  · rw [fo_hash_eq_key, fo_hash_eq_key, h5]

/-- Witness for claim C9: concrete pairs.  `exVi2` and `exFo2` carry junk in
the backing-array entries beyond the population counts but share the
populated-field view of `exVi1` and `exFo1`, so they compare equal and hash
equal. -/
theorem eq_hash_agree_witness :
    DxvkGraphicsPipelineShaders.hash exShaders = DxvkGraphicsPipelineShaders.hash exShaders
    ∧ exVi1.hash = exVi1.hash
    ∧ DxvkGraphicsPipelineVertexInputState.eq exVi1 exVi2 = true
    ∧ exVi1.hash = exVi2.hash
    ∧ exFo1.hash = exFo1.hash
    ∧ DxvkGraphicsPipelineFragmentOutputState.eq exFo1 exFo2 = true
    ∧ exFo1.hash = exFo2.hash :=
  eq_hash_agree exShaders exShaders exVi1 exVi1 exVi1 exVi2 exFo1 exFo1 exFo1 exFo2
    (by decide) (by decide) (by decide) (by decide) (by decide)

end Dxvk
